import Mathlib

/-!
Verification development for `src/client/src/nfc_reader.py` (class `NFCReader`).

The embedding is shallow and sequential:
* bytes are `List Nat` (each element one byte value);
* Python exceptions of the opaque driver calls are `Except Unit`;
* the driver's behaviour for the single activation call and the single
  transceive call performed by `_extract_uid` is packaged in an environment
  record (`ResolveEnv`), so the resolver becomes a pure function of that
  environment and of the sensed target;
* the reader loop's per-iteration behaviour is a step function on the
  session state `current_uid : Option String`, with callback invocations
  recorded as an event list;
* object state (`clf`, `running`, `current_uid`) is the record `ReaderState`,
  and `connect` / `disconnect` / `start` / `stop` / `is_connected` /
  `_reader_loop` are state-passing functions translated line by line.
-/

namespace NFCReader

/-- One uppercase hexadecimal digit, `hexDigit n` for `n < 16`. -/
def hexDigit (n : Nat) : Char :=
  (['0', '1', '2', '3', '4', '5', '6', '7', '8', '9',
    'A', 'B', 'C', 'D', 'E', 'F']).getD n '0'

/-- One byte as two uppercase hex digits, as Python's `bytes.hex().upper()`
renders a single byte. -/
def byteToHex (b : Nat) : String :=
  String.mk [hexDigit (b / 16 % 16), hexDigit (b % 16)]

/-- A byte string hex-encoded uppercase: the model of `bs.hex().upper()`. -/
def bytesToHex (bs : List Nat) : String :=
  String.join (bs.map byteToHex)

/-- A sensed target handle: the model keeps the only field `_extract_uid`
reads, the anti-collision response `sdd_res` (a byte string). -/
structure Target where
  sdd_res : List Nat

/-- An activated tag as `_extract_uid` uses it: its `type` attribute and the
behaviour of its `transceive` method (argument bytes to response bytes,
`Except.error` when the call raises). -/
structure Tag where
  type : String
  transceive : List Nat → Except Unit (List Nat)

/-- The driver behaviour `_extract_uid` depends on: what
`nfc.tag.activate(self.clf, target)` does for this connection and target —
it may raise (`error`), return a falsy tag (`ok none`) or return a tag. -/
structure ResolveEnv where
  activate : Except Unit (Option Tag)

/-- `bytes.fromhex("00A4040007F000000001000100")` of nfc_reader.py line 140:
the select-application APDU. -/
def select_aid_apdu : List Nat :=
  [0x00, 0xA4, 0x04, 0x00, 0x07, 0xF0, 0x00, 0x00, 0x00, 0x01, 0x00, 0x01, 0x00]

/-- `response.endswith(bytes.fromhex("9000"))` of line 146: true iff the
response has at least two bytes and its last two bytes are `90 00`. -/
def endsWith9000 (r : List Nat) : Bool :=
  decide (2 ≤ r.length) && (r.drop (r.length - 2) == [0x90, 0x00])

/-- The whole guard of line 146, `response and response.endswith(...)`:
response truthy (non-empty) and `9000`-terminated. -/
def respSuccess (r : List Nat) : Bool :=
  !r.isEmpty && endsWith9000 r

/-- `_extract_uid` (nfc_reader.py lines 123-160), translated branch by
branch. Every exception of `activate` or `transceive` is caught by the
function's `try`/`except` blocks, so the translation is total and returns
the hardware UID on every failure path; the success path strips the last
two bytes of the response (`response[:-2]`) and hex-encodes uppercase. -/
def extract_uid (env : ResolveEnv) (target : Target) : String :=
  let hw_uid := bytesToHex target.sdd_res
  match env.activate with
  | Except.error _ => hw_uid
  | Except.ok none => hw_uid
  | Except.ok (some tag) =>
    if tag.type = "Type4Tag" then
      match tag.transceive select_aid_apdu with
      | Except.error _ => hw_uid
      | Except.ok response =>
        if respSuccess response then
          bytesToHex (response.take (response.length - 2))
        else hw_uid
    else hw_uid

/-- A Python `try`/`except Exception` block: run the body; on an exception
run the handler instead. -/
def pyTry {α : Type} (body : Except Unit α) (handler : Except Unit α) :
    Except Unit α :=
  match body with
  | Except.ok a => Except.ok a
  | Except.error _ => handler

/-- `_extract_uid` with the exception flow kept explicit: the body is written
in `Except`, raising driver calls propagate (`Except.error`) until a
`try`/`except` (`pyTry`) catches them, exactly as the two nested
`try`/`except` blocks of lines 132-157 are placed in the source. `ok (some u)`
models the early `return custom_uid` of line 150; `ok none` models falling
through to `return hw_uid` of line 160. -/
def extract_uid_exc (env : ResolveEnv) (target : Target) : Except Unit String :=
  let hw_uid := bytesToHex target.sdd_res
  let attempt : Except Unit (Option String) :=
    pyTry
      (match env.activate with
       | Except.error e => Except.error e
       | Except.ok none => Except.ok none
       | Except.ok (some tag) =>
         if tag.type = "Type4Tag" then
           pyTry
             (match tag.transceive select_aid_apdu with
              | Except.error e => Except.error e
              | Except.ok response =>
                if respSuccess response then
                  Except.ok (some (bytesToHex (response.take (response.length - 2))))
                else Except.ok none)
             (Except.ok none)
         else Except.ok none)
      (Except.ok none)
  match attempt with
  | Except.ok (some custom) => Except.ok custom
  | Except.ok none => Except.ok hw_uid
  | Except.error e => Except.error e

/-- One polling iteration's sense outcome (lines 102-104): the sense call
found a target that resolved to `uid`, found no target, or raised. -/
inductive SenseOutcome where
  | hit (uid : String)
  | miss
  | senseRaise
  deriving DecidableEq

/-- A callback invocation observed by the consumer. -/
inductive Event where
  | arrival (uid : String)
  | removal
  deriving DecidableEq

/-- One iteration of the `while self.running` body (lines 98-121) on the
session state `current_uid`, returning the new state and the callbacks
invoked. A hit fires the arrival callback iff the uid is truthy (non-empty)
and differs from `current_uid` (line 106); a miss fires the removal callback
iff `current_uid` is set (line 114); a raising sense call is caught by the
per-iteration handler (line 120) and changes nothing. -/
def loop_iter (st : Option String) (o : SenseOutcome) :
    Option String × List Event :=
  match o with
  | SenseOutcome.hit uid =>
    if uid ≠ "" ∧ st ≠ some uid then (some uid, [Event.arrival uid])
    else (st, [])
  | SenseOutcome.miss =>
    match st with
    | some _ => (none, [Event.removal])
    | none => (none, [])
  | SenseOutcome.senseRaise => (st, [])

/-- The loop body iterated over a finite list of sense outcomes, collecting
the invoked callbacks in order. -/
def loop_run (st : Option String) : List SenseOutcome → Option String × List Event
  | [] => (st, [])
  | o :: rest =>
    let p := loop_iter st o
    let q := loop_run p.1 rest
    (q.1, p.2 ++ q.2)

/-- One iteration like `loop_iter`, but the invoked callback itself may raise
(`cbRaises`); the raise is caught by the per-iteration `except` of line 120.
The translation keeps the source's statement order: on a hit,
`self.current_uid = uid` (line 108) precedes the callback (line 110), so the
state is updated even when the callback raises; on a miss the callback
(line 118) precedes `self.current_uid = None` (line 119), so a raising
removal callback leaves the state set. The third component records whether
an exception was caught this iteration (the loop continues either way). -/
def loop_iter_exc (st : Option String) (o : SenseOutcome) (cbRaises : Bool) :
    Option String × List Event × Bool :=
  match o with
  | SenseOutcome.hit uid =>
    if uid ≠ "" ∧ st ≠ some uid then (some uid, [Event.arrival uid], cbRaises)
    else (st, [], false)
  | SenseOutcome.miss =>
    match st with
    | some _ =>
      if cbRaises then (st, [Event.removal], true)
      else (none, [Event.removal], false)
    | none => (none, [], false)
  | SenseOutcome.senseRaise => (st, [], true)

/-- `loop_iter_exc` iterated: each element pairs a sense outcome with whether
the callback it triggers (if any) raises. A caught exception never stops the
loop: the remaining iterations still run. -/
def loop_run_exc (st : Option String) :
    List (SenseOutcome × Bool) → Option String × List Event
  | [] => (st, [])
  | ob :: rest =>
    let p := loop_iter_exc st ob.1 ob.2
    let q := loop_run_exc p.1 rest
    (q.1, p.2.1 ++ q.2)

/-- The mutable fields of an `NFCReader` object that the claims concern:
`self.clf` (the open connection handle or `None`), `self.running`, and
`self.current_uid`. -/
structure ReaderState where
  clf : Option Unit
  running : Bool
  current_uid : Option String
  deriving DecidableEq

/-- The state `__init__` (lines 44-47) leaves the object in. -/
def init_state : ReaderState :=
  { clf := none, running := false, current_uid := none }

/-- The environment of one `connect()` call: whether the `nfc` library was
importable and what `nfc.ContactlessFrontend(self.port)` does (opens, or
raises). -/
structure ConnectEnv where
  nfc_available : Bool
  open_result : Except Unit Unit

/-- `connect` (lines 49-68): returns `False` when the library is absent or
the frontend constructor raises (leaving `clf` untouched), else stores the
handle in `clf` and returns `True`. -/
def connect (env : ConnectEnv) (st : ReaderState) : ReaderState × Bool :=
  if !env.nfc_available then (st, false)
  else
    match env.open_result with
    | Except.ok _ => ({ st with clf := some () }, true)
    | Except.error _ => (st, false)

/-- `disconnect` (lines 70-75): closes and clears `clf` only when it is set;
a second call is a guarded no-op. -/
def disconnect (st : ReaderState) : ReaderState :=
  match st.clf with
  | some _ => { st with clf := none }
  | none => st

/-- `start` (lines 77-83): only when `running` is not already set does it set
the flag and launch the reader thread; the second component records whether
a new polling run was launched. -/
def start (st : ReaderState) : ReaderState × Bool :=
  if !st.running then ({ st with running := true }, true)
  else (st, false)

/-- `stop` (lines 85-91): clear `running`, join the thread (a no-op in this
sequential model), then `disconnect`. -/
def stop (st : ReaderState) : ReaderState :=
  disconnect { st with running := false }

/-- `is_connected` (lines 162-169): `self.running and self.clf is not None`. -/
def is_connected (st : ReaderState) : Bool :=
  st.running && st.clf.isSome

/-- `_reader_loop` (lines 93-121) as one finite polling run: if `connect`
fails the run returns at once with no iterations (line 96); otherwise the
iteration body runs once per element of `os` (the run's sense outcomes,
ending when `stop` clears the flag), threading `current_uid` and collecting
the invoked callbacks. -/
def reader_loop (env : ConnectEnv) (os : List SenseOutcome) (st : ReaderState) :
    ReaderState × List Event :=
  let c := connect env st
  if c.2 then
    let r := loop_run c.1.current_uid os
    ({ c.1 with current_uid := r.1 }, r.2)
  else (c.1, [])

end NFCReader

namespace NFCReader

/-- The exception-explicit resolver never propagates a failure: it agrees
with the total translation `extract_uid` on every environment. -/
theorem extract_uid_exc_ok (env : ResolveEnv) (target : Target) :
    extract_uid_exc env target = Except.ok (extract_uid env target) := by
  unfold extract_uid_exc extract_uid
  cases h : env.activate with
  | error e => simp [pyTry]
  | ok o =>
    cases o with
    | none => simp [pyTry]
    | some tag =>
      by_cases hty : tag.type = "Type4Tag"
      · cases htr : tag.transceive select_aid_apdu with
        | error e => simp [pyTry, hty, htr]
        | ok resp =>
          by_cases hs : respSuccess resp
          · simp [pyTry, hty, htr, hs]
          · simp [pyTry, hty, htr, hs]
      · simp [pyTry, hty]

/-- Claim C1: when activation succeeds with an application-capable
(`Type4Tag`) tag, the resolver transmits the fixed 13-byte select APDU
`00 A4 04 00 07 F0 00 00 00 01 00 01 00`, and a received response whose
trailing two bytes are `90 00` is returned with those two bytes stripped,
hex-encoded uppercase, for every hardware identifier value. -/
theorem resolver_priority_law (env : ResolveEnv) (target : Target) (tag : Tag)
    (resp : List Nat)
    (hact : env.activate = Except.ok (some tag))
    (htype : tag.type = "Type4Tag")
    (htr : tag.transceive select_aid_apdu = Except.ok resp)
    (hlen : 2 ≤ resp.length)
    (hsw : resp.drop (resp.length - 2) = [0x90, 0x00]) :
    select_aid_apdu =
      [0x00, 0xA4, 0x04, 0x00, 0x07, 0xF0, 0x00, 0x00, 0x00, 0x01, 0x00, 0x01, 0x00] ∧
    select_aid_apdu.length = 13 ∧
    extract_uid env target = bytesToHex (resp.take (resp.length - 2)) := by
  refine ⟨rfl, rfl, ?_⟩
  have hne : resp.isEmpty = false := by
    cases resp with
    | nil => simp at hlen
    | cons a l => rfl
  have hsucc : respSuccess resp = true := by
    simp [respSuccess, endsWith9000, hne, hlen, hsw]
  simp [extract_uid, hact, htype, htr, hsucc]

/-- Witness for C1: Scenario 2 of the spec — activation succeeds and the
AID select returns `AA BB CC DD 90 00`. -/
theorem resolver_priority_law_witness :
    select_aid_apdu =
      [0x00, 0xA4, 0x04, 0x00, 0x07, 0xF0, 0x00, 0x00, 0x00, 0x01, 0x00, 0x01, 0x00] ∧
    select_aid_apdu.length = 13 ∧
    extract_uid
        ⟨Except.ok (some ⟨"Type4Tag",
          fun _ => Except.ok [0xAA, 0xBB, 0xCC, 0xDD, 0x90, 0x00]⟩)⟩
        ⟨[0x04, 0xA1, 0xB2, 0xC3]⟩ =
      bytesToHex (([0xAA, 0xBB, 0xCC, 0xDD, 0x90, 0x00] : List Nat).take
        (([0xAA, 0xBB, 0xCC, 0xDD, 0x90, 0x00] : List Nat).length - 2)) :=
  resolver_priority_law _ _
    ⟨"Type4Tag", fun _ => Except.ok [0xAA, 0xBB, 0xCC, 0xDD, 0x90, 0x00]⟩
    [0xAA, 0xBB, 0xCC, 0xDD, 0x90, 0x00] rfl rfl rfl (by decide) (by decide)

/-- Claim C2: if activation raises or yields no tag, the type check fails,
the transceive raises, or the status-word check fails, the resolver returns
the hardware anti-collision identifier hex-encoded uppercase. -/
theorem resolver_fallback_law (env : ResolveEnv) (target : Target)
    (hfail :
      env.activate = Except.error () ∨
      env.activate = Except.ok none ∨
      (∃ tag, env.activate = Except.ok (some tag) ∧ tag.type ≠ "Type4Tag") ∨
      (∃ tag, env.activate = Except.ok (some tag) ∧
        tag.transceive select_aid_apdu = Except.error ()) ∨
      (∃ tag resp, env.activate = Except.ok (some tag) ∧
        tag.transceive select_aid_apdu = Except.ok resp ∧
        respSuccess resp = false)) :
    extract_uid env target = bytesToHex target.sdd_res := by
  rcases hfail with h | h | ⟨tag, h, ht⟩ | ⟨tag, h, ht⟩ | ⟨tag, resp, h, ht, hs⟩
  · simp [extract_uid, h]
  · simp [extract_uid, h]
  · simp [extract_uid, h, ht]
  · by_cases hty : tag.type = "Type4Tag" <;> simp [extract_uid, h, ht, hty]
  · by_cases hty : tag.type = "Type4Tag" <;> simp [extract_uid, h, ht, hs, hty]

/-- Witness for C2: Scenario 1 of the spec — activation raises (a plain
Mifare card), hardware UID `04 A1 B2 C3`. -/
theorem resolver_fallback_law_witness :
    extract_uid ⟨Except.error ()⟩ ⟨[0x04, 0xA1, 0xB2, 0xC3]⟩ =
      bytesToHex [0x04, 0xA1, 0xB2, 0xC3] :=
  resolver_fallback_law ⟨Except.error ()⟩ ⟨[0x04, 0xA1, 0xB2, 0xC3]⟩ (Or.inl rfl)

/-- Claim C5: the resolver is a total function — with the exception flow
made explicit it returns `Except.ok` on every environment and target, its
value being the string `extract_uid` computes (custom UID or the always
obtainable hardware UID fallback). -/
theorem resolver_total (env : ResolveEnv) (target : Target) :
    extract_uid_exc env target = Except.ok (extract_uid env target) :=
  extract_uid_exc_ok env target

end NFCReader

namespace NFCReader

/-- Repeated hits of the identity already recorded as current change nothing
and fire no callback. -/
theorem loop_run_hit_same (uid : String) (n : Nat) :
    loop_run (some uid) (List.replicate n (SenseOutcome.hit uid)) =
      (some uid, []) := by
  induction n with
  | zero => rfl
  | succ k ih => simp [List.replicate_succ, loop_run, loop_iter, ih]

/-- Claim C3: a hit iteration fires the arrival callback iff the resolved
identity is non-empty and differs from the current session state; it then
records that identity, and a maximal run of hits of one non-empty identity
fires arrival exactly once. -/
theorem arrival_edge_dedup (st : Option String) (uid : String) (n : Nat) :
    ((loop_iter st (SenseOutcome.hit uid)).2 = [Event.arrival uid] ↔
      uid ≠ "" ∧ st ≠ some uid) ∧
    ((loop_iter st (SenseOutcome.hit uid)).2 = [] ↔
      ¬(uid ≠ "" ∧ st ≠ some uid)) ∧
    (uid ≠ "" ∧ st ≠ some uid →
      (loop_iter st (SenseOutcome.hit uid)).1 = some uid) ∧
    (¬(uid ≠ "" ∧ st ≠ some uid) →
      (loop_iter st (SenseOutcome.hit uid)).1 = st) ∧
    (uid ≠ "" → st ≠ some uid →
      (loop_run st (List.replicate (n + 1) (SenseOutcome.hit uid))).2 =
        [Event.arrival uid]) := by
  by_cases h : uid ≠ "" ∧ st ≠ some uid
  · refine ⟨by simp [loop_iter, h], by simp [loop_iter, h],
      fun _ => by simp [loop_iter, h], fun hn => absurd h hn, fun h1 h2 => ?_⟩
    simp [List.replicate_succ, loop_run, loop_iter, h, loop_run_hit_same]
  · refine ⟨by simp [loop_iter, h], by simp [loop_iter, h],
      fun hc => absurd hc h, fun _ => by simp [loop_iter, h], fun h1 h2 => ?_⟩
    exact absurd ⟨h1, h2⟩ h

/-- Witness for C3: from an empty session state, three consecutive hits of
the non-empty identity `X1` fire arrival exactly once. -/
theorem arrival_edge_dedup_witness :
    (loop_run none (List.replicate (2 + 1) (SenseOutcome.hit "X1"))).2 =
      [Event.arrival "X1"] :=
  (arrival_edge_dedup none "X1" 2).2.2.2.2 (by decide) (by decide)

/-- Claim C4: a miss iteration fires the removal callback iff the session
state holds an identity, always leaves the state cleared, is a no-op on an
empty state, and two consecutive misses fire removal at most once. -/
theorem removal_edge_idempotent (st : Option String) :
    ((loop_iter st SenseOutcome.miss).2 = [Event.removal] ↔ st ≠ none) ∧
    ((loop_iter st SenseOutcome.miss).2 = [] ↔ st = none) ∧
    (loop_iter st SenseOutcome.miss).1 = none ∧
    loop_iter none SenseOutcome.miss = (none, []) ∧
    ((loop_run st [SenseOutcome.miss, SenseOutcome.miss]).2 =
        [Event.removal] ∨
      (loop_run st [SenseOutcome.miss, SenseOutcome.miss]).2 = []) := by
  cases st <;> simp [loop_iter, loop_run]

/-- Witness for C4 at a concrete state: with `A` present, a miss fires one
removal and clears the state. -/
theorem removal_edge_idempotent_witness :
    (loop_iter (some "A") SenseOutcome.miss).1 = none :=
  (removal_edge_idempotent (some "A")).2.2.1

/-- Claim C9: a transceived response of exactly the two status bytes `90 00`
makes the resolver return the empty string, and a hit resolving to that
empty identity fires no arrival callback and leaves the session state
unchanged. -/
theorem status_only_response_empty_uid (env : ResolveEnv) (target : Target)
    (tag : Tag) (st : Option String)
    (hact : env.activate = Except.ok (some tag))
    (htype : tag.type = "Type4Tag")
    (htr : tag.transceive select_aid_apdu = Except.ok [0x90, 0x00]) :
    extract_uid env target = "" ∧
    loop_iter st (SenseOutcome.hit (extract_uid env target)) = (st, []) := by
  have hs : respSuccess [0x90, 0x00] = true := by decide
  have h : extract_uid env target = "" := by
    simp [extract_uid, hact, htype, htr, hs, bytesToHex]
    rfl
  exact ⟨h, by simp [h, loop_iter]⟩

/-- Witness for C9: concrete environment whose transceive answers `90 00`
only, with a non-empty hardware identifier and empty session state. -/
theorem status_only_response_empty_uid_witness :
    extract_uid
        ⟨Except.ok (some ⟨"Type4Tag", fun _ => Except.ok [0x90, 0x00]⟩)⟩
        ⟨[0x04, 0xA1]⟩ = "" ∧
    loop_iter none
        (SenseOutcome.hit (extract_uid
          ⟨Except.ok (some ⟨"Type4Tag", fun _ => Except.ok [0x90, 0x00]⟩)⟩
          ⟨[0x04, 0xA1]⟩)) = (none, []) :=
  status_only_response_empty_uid _ _
    ⟨"Type4Tag", fun _ => Except.ok [0x90, 0x00]⟩ none rfl rfl rfl

end NFCReader

namespace NFCReader

/-- With the session state already recording `uid`, further hits of `uid`
fire no callback and keep the state, whatever each callback's raise flag. -/
theorem loop_run_exc_hit_same (uid : String) (bs : List Bool) :
    loop_run_exc (some uid) (bs.map fun b => (SenseOutcome.hit uid, b)) =
      (some uid, []) := by
  induction bs with
  | nil => rfl
  | cons b t ih => simp [loop_run_exc, loop_iter_exc, ih]

/-- Claim C10: on a new or changed non-empty identity the session state is
updated before the arrival callback runs, so when the callback raises the
exception is caught per-iteration (the remaining iterations still run) and
the identity stays recorded: the whole run fires arrival once and never
re-fires it while the same token stays present. -/
theorem arrival_state_recorded_despite_raise (st : Option String)
    (uid : String) (bs : List Bool)
    (h1 : uid ≠ "") (h2 : st ≠ some uid) :
    (loop_iter_exc st (SenseOutcome.hit uid) true).1 = some uid ∧
    (loop_iter_exc st (SenseOutcome.hit uid) true).2.2 = true ∧
    (loop_run_exc st ((SenseOutcome.hit uid, true) ::
        bs.map fun b => (SenseOutcome.hit uid, b))).2 = [Event.arrival uid] := by
  have hc : uid ≠ "" ∧ st ≠ some uid := ⟨h1, h2⟩
  refine ⟨by simp [loop_iter_exc, hc], by simp [loop_iter_exc, hc], ?_⟩
  simp [loop_run_exc, loop_iter_exc, hc, loop_run_exc_hit_same]

/-- Witness for C10: identity `X1` arrives on an empty state, its callback
raises, and two further hits of `X1` (callbacks well-behaved) re-fire
nothing. -/
theorem arrival_state_recorded_despite_raise_witness :
    (loop_iter_exc none (SenseOutcome.hit "X1") true).1 = some "X1" ∧
    (loop_iter_exc none (SenseOutcome.hit "X1") true).2.2 = true ∧
    (loop_run_exc none ((SenseOutcome.hit "X1", true) ::
        [false, false].map fun b => (SenseOutcome.hit "X1", b))).2 =
      [Event.arrival "X1"] :=
  arrival_state_recorded_despite_raise none "X1" [false, false]
    (by decide) (by decide)

/-- A failing library check or a raising frontend constructor makes
`connect` return `False` with the state untouched. -/
theorem connect_fails_of_env (env : ConnectEnv) (st : ReaderState)
    (hfail : env.nfc_available = false ∨ env.open_result = Except.error ()) :
    connect env st = (st, false) := by
  rcases hfail with h | h
  · simp [connect, h]
  · cases hn : env.nfc_available <;> simp [connect, hn, h]

/-- Claim C6, counterexample: connection open fails for a freshly started
reader; the polling run exits, yet a subsequent `start()` launches no new
polling run (its guard sees `running` still `True`), so the claim's
"a subsequent explicit start() call begins a new polling run" fails. -/
theorem start_after_failed_connect_noop :
    (start ((reader_loop ⟨true, Except.error ()⟩ []
        ((start init_state).1)).1)).2 = false ∧
    ((reader_loop ⟨true, Except.error ()⟩ []
        ((start init_state).1)).1).running = true :=
  ⟨rfl, rfl⟩

/-- Claim C6 as amended: if opening the connection fails at polling-cycle
entry, the run aborts with no iteration and no retry, `is_connected` reports
false thereafter, and — because the running flag remains set — a subsequent
`start()` call alone is a no-op; the caller must call `stop()` (clearing the
flag) before `start()` launches a new polling run. -/
theorem failed_connect_stop_before_restart (env : ConnectEnv)
    (os : List SenseOutcome) (st : ReaderState)
    (hclf : st.clf = none) (hrun : st.running = true)
    (hfail : env.nfc_available = false ∨ env.open_result = Except.error ()) :
    (reader_loop env os st).2 = [] ∧
    (reader_loop env os st).1 = st ∧
    is_connected (reader_loop env os st).1 = false ∧
    (start (reader_loop env os st).1).2 = false ∧
    (start (stop (reader_loop env os st).1)).2 = true := by
  have hc : connect env st = (st, false) := connect_fails_of_env env st hfail
  have hl : reader_loop env os st = (st, []) := by
    simp [reader_loop, hc]
  refine ⟨by simp [hl], by simp [hl], ?_, ?_, ?_⟩
  · simp [hl, is_connected, hclf]
  · simp [hl, start, hrun]
  · simp [hl, stop, disconnect, hclf, start]

/-- Witness for the amended C6 at a concrete failing environment and the
state a fresh `start()` leaves. -/
theorem failed_connect_stop_before_restart_witness :
    (reader_loop ⟨true, Except.error ()⟩ [] ⟨none, true, none⟩).2 = [] ∧
    (reader_loop ⟨true, Except.error ()⟩ [] ⟨none, true, none⟩).1 =
      ⟨none, true, none⟩ ∧
    is_connected (reader_loop ⟨true, Except.error ()⟩ []
      ⟨none, true, none⟩).1 = false ∧
    (start (reader_loop ⟨true, Except.error ()⟩ [] ⟨none, true, none⟩).1).2 =
      false ∧
    (start (stop (reader_loop ⟨true, Except.error ()⟩ []
      ⟨none, true, none⟩).1)).2 = true :=
  failed_connect_stop_before_restart ⟨true, Except.error ()⟩ []
    ⟨none, true, none⟩ rfl rfl (Or.inr rfl)

/-- Claim C7: when opening the connection fails, the polling run invokes no
arrival or removal callback and `is_connected` is false afterwards. -/
theorem failed_connect_no_callbacks (env : ConnectEnv)
    (os : List SenseOutcome) (st : ReaderState) (hclf : st.clf = none)
    (hfail : env.nfc_available = false ∨ env.open_result = Except.error ()) :
    (reader_loop env os st).2 = [] ∧
    is_connected (reader_loop env os st).1 = false := by
  have hc : connect env st = (st, false) := connect_fails_of_env env st hfail
  have hl : reader_loop env os st = (st, []) := by
    simp [reader_loop, hc]
  exact ⟨by simp [hl], by simp [hl, is_connected, hclf]⟩

/-- Witness for C7: the nfc library absent, starting from the initial
state, over an arbitrary concrete outcome list. -/
theorem failed_connect_no_callbacks_witness :
    (reader_loop ⟨false, Except.ok ()⟩
      [SenseOutcome.hit "X1", SenseOutcome.miss] ((start init_state).1)).2 =
      [] ∧
    is_connected (reader_loop ⟨false, Except.ok ()⟩
      [SenseOutcome.hit "X1", SenseOutcome.miss] ((start init_state).1)).1 =
      false :=
  failed_connect_no_callbacks ⟨false, Except.ok ()⟩
    [SenseOutcome.hit "X1", SenseOutcome.miss] ((start init_state).1)
    rfl (Or.inl rfl)

/-- Claim C8: `stop()` always leaves the connection handle cleared and
`is_connected` false; a repeated `stop()` — and a repeated `disconnect()` —
is an idempotent no-op. -/
theorem stop_closes_idempotent (st : ReaderState) :
    (stop st).clf = none ∧
    is_connected (stop st) = false ∧
    stop (stop st) = stop st ∧
    disconnect (disconnect st) = disconnect st := by
  cases st with
  | mk c r u => cases c <;> simp [stop, disconnect, is_connected]

end NFCReader
